import Mathlib

/-!
Verification development for the ascendara-installer core
(src/core/downloader.py and src/core/installer.py), shallowly embedded.

Conventions of the embedding:
* Python exceptions that escape a function are represented by `Except.error`;
  a normal return is `Except.ok`.
* The HTTP server's behaviour for one `requests.get` call is a `Response`
  value; `Downloader.download_file` issues exactly one `requests.get`
  (the code contains no retry loop), which consumes the head of a scripted
  response list.  The number of issued requests and the `time.sleep` calls
  performed are recorded in the result so that retry/backoff claims can be
  stated.
* Callback invocations (progress / status / completion) are recorded as
  events in the order the code performs them.
* `float` arithmetic of the progress computation is modelled over `ℚ`.
-/

namespace Ascendara

/-- Outcome of one `requests.get(url, stream=True, timeout=30)` call, as the
downloader observes it:
* `netError`: the call raised a `RequestException` (connection error, timeout,
  DNS failure, ...);
* `resp status contentLength chunks truncated`: an HTTP response with the
  given status code, the value of `int(response.headers.get('content-length', 0))`
  (0 when the header is absent), the byte-lengths of the chunks delivered by
  `response.iter_content`, and `truncated = true` when the stream raises after
  delivering those chunks (mid-body network failure). -/
inductive Response where
  | netError
  | resp (status : Nat) (contentLength : Nat) (chunks : List Nat) (truncated : Bool)
deriving DecidableEq, Repr

/-- A callback invocation performed by `Downloader.download_file`:
`status msg` is `self.status_callback(msg)`, `progress v` is
`self.progress_callback(v)` with the percentage value `v`. -/
inductive DlEvent where
  | status (msg : String)
  | progress (value : ℚ)
deriving DecidableEq, Repr

/-- State of the destination file (`local_path`) on disk:
whether it exists and its size in bytes. -/
structure FileState where
  present : Bool
  size : Nat
deriving DecidableEq, Repr

/-- Result of one `Downloader.download_file` call.
`outcome` is `.ok ()` when the function returns `local_path` and `.error ()`
when it (re-)raises; `requests` counts the `requests.get` calls issued;
`sleeps` records the durations of `time.sleep` calls (backoff) performed;
`file` is the state of `local_path` after the call; `events` are the
callback invocations in order. -/
structure DlResult where
  outcome : Except Unit Unit
  requests : Nat
  sleeps : List ℚ
  file : FileState
  events : List DlEvent
deriving Repr

/-- The progress values emitted by the chunk loop of
`Downloader.download_file` (lines 59-70): for each non-empty chunk
(`if chunk:` skips empty ones) the code runs
`progress = min((downloaded / total_size) * 100, 100.0)` and calls
`self.progress_callback(progress)`.  `total` is `total_size`,
`downloaded` the bytes written before the remaining `chunks`. -/
def progressList (total : Nat) (downloaded : Nat) : List Nat → List ℚ
  | [] => []
  | c :: rest =>
    if c = 0 then progressList total downloaded rest
    else
      min (((downloaded + c : ℚ) / (total : ℚ)) * 100) 100 ::
        progressList total (downloaded + c) rest

/-- Shallow embedding of `Downloader.download_file` (src/core/downloader.py,
lines 16-84).  `name` is `Path(local_path).name`, `initialFile` the state of
`local_path` before the call and `script` the scripted server behaviour; the
single `requests.get` of the function consumes `script.headD .netError`.

Control flow of the source: emit the "Downloading ..." status, issue the GET,
`raise_for_status()` (raises for any status ≥ 400 — there is no retry loop
and no `time.sleep` in the function), read `content-length`; open the file
for writing (`'wb'` truncates, so from that point the file exists); if the
length is 0 write `response.content` in one shot, otherwise loop over the
chunks accumulating `downloaded` and reporting progress; on any raised
exception the handlers invoke the status callback and re-raise — the
partially written file is left in place (no deletion occurs). -/
def downloadFile (name : String) (initialFile : FileState)
    (script : List Response) : DlResult :=
  let preEvents : List DlEvent := [DlEvent.status ("Downloading " ++ name ++ "...")]
  match script.headD Response.netError with
  | Response.netError =>
      { outcome := Except.error (), requests := 1, sleeps := [],
        file := initialFile,
        events := preEvents ++ [DlEvent.status "Download error: connection failed"] }
  | Response.resp status contentLength chunks truncated =>
      if 400 ≤ status then
        { outcome := Except.error (), requests := 1, sleeps := [],
          file := initialFile,
          events := preEvents ++
            [DlEvent.status ("Download error: HTTP " ++ toString status)] }
      else if contentLength = 0 then
        if truncated then
          { outcome := Except.error (), requests := 1, sleeps := [],
            file := { present := true, size := 0 },
            events := preEvents ++
              [DlEvent.status "Download error: connection broken"] }
        else
          { outcome := Except.ok (), requests := 1, sleeps := [],
            file := { present := true, size := chunks.sum },
            events := preEvents }
      else
        let prog := (progressList contentLength 0 chunks).map DlEvent.progress
        if truncated then
          { outcome := Except.error (), requests := 1, sleeps := [],
            file := { present := true, size := chunks.sum },
            events := preEvents ++ prog ++
              [DlEvent.status "Download error: connection broken"] }
        else
          { outcome := Except.ok (), requests := 1, sleeps := [],
            file := { present := true, size := chunks.sum },
            events := preEvents ++ prog }

/-- The `Determinate` progress values among a list of downloader events. -/
def progressValues (evs : List DlEvent) : List ℚ :=
  evs.filterMap (fun e =>
    match e with
    | DlEvent.progress v => some v
    | _ => none)

/-! ### SHA-256 and HMAC-SHA256

`InstallerProcess._generate_auth_headers` signs with
`hmac.new(secret, message, hashlib.sha256).hexdigest()`.  The hash is
embedded concretely over byte lists (`Nat` values < 256, 32-bit words as
`Nat` reduced mod 2^32). -/

/-- Truncation to a 32-bit word. -/
def w32 (x : Nat) : Nat := x % 4294967296

/-- Right rotation of a 32-bit word. -/
def rotr32 (n x : Nat) : Nat := w32 ((x >>> n) ||| (x <<< (32 - n)))

/-- Big-endian byte serialisation of `x` on `n` bytes. -/
def toBytesBE (n x : Nat) : List Nat :=
  (List.range n).map (fun i => (x >>> (8 * (n - 1 - i))) % 256)

/-- Big-endian word from a byte list. -/
def wordBE (b : List Nat) : Nat := b.foldl (fun a x => a * 256 + x) 0

/-- Split a list into consecutive chunks of `n` elements. -/
def chunksOf (n : Nat) (l : List Nat) : List (List Nat) :=
  if h : l = [] ∨ n = 0 then []
  else l.take n :: chunksOf n (l.drop n)
termination_by l.length
decreasing_by
  simp only [List.length_drop]
  have h1 : l ≠ [] := fun hl => h (Or.inl hl)
  have h2 : n ≠ 0 := fun hn => h (Or.inr hn)
  have h3 : 0 < l.length := List.length_pos.mpr h1
  omega

/-- The 64 SHA-256 round constants (FIPS 180-4), written in decimal. -/
def sha256K : List Nat :=
  [1116352408, 1899447441, 3049323471, 3921009573, 961987163,
   1508970993, 2453635748, 2870763221, 3624381080, 310598401,
   607225278, 1426881987, 1925078388, 2162078206, 2614888103,
   3248222580, 3835390401, 4022224774, 264347078, 604807628,
   770255983, 1249150122, 1555081692, 1996064986, 2554220882,
   2821834349, 2952996808, 3210313671, 3336571891, 3584528711,
   113926993, 338241895, 666307205, 773529912, 1294757372,
   1396182291, 1695183700, 1986661051, 2177026350, 2456956037,
   2730485921, 2820302411, 3259730800, 3345764771, 3516065817,
   3600352804, 4094571909, 275423344, 430227734, 506948616,
   659060556, 883997877, 958139571, 1322822218, 1537002063,
   1747873779, 1955562222, 2024104815, 2227730452, 2361852424,
   2428436474, 2756734187, 3204031479, 3329325298]

/-- The eight SHA-256 initial hash words (FIPS 180-4), written in decimal. -/
def sha256H0 : List Nat :=
  [1779033703, 3144134277, 1013904242, 2773480762,
   1359893119, 2600822924, 528734635, 1541459225]

/-- SHA-256 small sigma 0. -/
def ssig0 (x : Nat) : Nat := (rotr32 7 x) ^^^ (rotr32 18 x) ^^^ (x >>> 3)

/-- SHA-256 small sigma 1. -/
def ssig1 (x : Nat) : Nat := (rotr32 17 x) ^^^ (rotr32 19 x) ^^^ (x >>> 10)

/-- SHA-256 big sigma 0. -/
def bsig0 (x : Nat) : Nat := (rotr32 2 x) ^^^ (rotr32 13 x) ^^^ (rotr32 22 x)

/-- SHA-256 big sigma 1. -/
def bsig1 (x : Nat) : Nat := (rotr32 6 x) ^^^ (rotr32 11 x) ^^^ (rotr32 25 x)

/-- SHA-256 choice function (`¬x` as xor with the 32-bit mask). -/
def chFn (x y z : Nat) : Nat := (x &&& y) ^^^ ((x ^^^ 0xffffffff) &&& z)

/-- SHA-256 majority function. -/
def majFn (x y z : Nat) : Nat := (x &&& y) ^^^ (x &&& z) ^^^ (y &&& z)

/-- Extend the 16 message words of one block to the 64-word schedule. -/
def sha256Schedule (w16 : List Nat) : List Nat :=
  (List.range 48).foldl
    (fun w _ =>
      let n := w.length
      w ++ [w32 (ssig1 (w.getD (n - 2) 0) + w.getD (n - 7) 0 +
                 ssig0 (w.getD (n - 15) 0) + w.getD (n - 16) 0)])
    w16

/-- One SHA-256 round on the working state `[a,b,c,d,e,f,g,h]` with the
round constant and schedule word `kw`. -/
def sha256Round (st : List Nat) (kw : Nat × Nat) : List Nat :=
  match st with
  | [a, b, c, d, e, f, g, h] =>
    let t1 := w32 (h + bsig1 e + chFn e f g + kw.1 + kw.2)
    let t2 := w32 (bsig0 a + majFn a b c)
    [w32 (t1 + t2), a, b, c, w32 (d + t1), e, f, g]
  | _ => st

/-- SHA-256 compression of one 64-byte block into the hash state. -/
def sha256Compress (h : List Nat) (block : List Nat) : List Nat :=
  let w := sha256Schedule ((chunksOf 4 block).map wordBE)
  let st := (sha256K.zip w).foldl sha256Round h
  (h.zip st).map (fun p => w32 (p.1 + p.2))

/-- SHA-256 padding: append `0x80`, zero bytes up to 56 mod 64, then the
bit length on 8 big-endian bytes. -/
def sha256Pad (msg : List Nat) : List Nat :=
  let padLen := (120 - (msg.length + 1) % 64) % 64
  msg ++ [0x80] ++ List.replicate padLen 0 ++ toBytesBE 8 (8 * msg.length)

/-- SHA-256 of a byte list, as a 32-byte digest. -/
def sha256 (msg : List Nat) : List Nat :=
  ((chunksOf 64 (sha256Pad msg)).foldl sha256Compress sha256H0).flatMap
    (toBytesBE 4)

/-- One lowercase hexadecimal digit. -/
def hexDigit (n : Nat) : Char :=
  "0123456789abcdef".toList.getD n '0'

/-- Lowercase hex string of a byte list (`hexdigest`). -/
def toHexStr (bytes : List Nat) : String :=
  String.mk (bytes.flatMap (fun b => [hexDigit (b / 16), hexDigit (b % 16)]))

/-- UTF-8 bytes of a string (`str.encode()`). -/
def strBytes (s : String) : List Nat := s.toUTF8.toList.map UInt8.toNat

/-- HMAC-SHA256 over byte lists (block size 64). -/
def hmacSha256 (key msg : List Nat) : List Nat :=
  let k0 := if 64 < key.length then sha256 key else key
  let kp := k0 ++ List.replicate (64 - k0.length) 0
  sha256 ((kp.map (fun b => b ^^^ 0x5c)) ++
    sha256 ((kp.map (fun b => b ^^^ 0x36)) ++ msg))

/-- `hmac.new(key.encode(), msg.encode(), hashlib.sha256).hexdigest()`. -/
def hmacSha256Hex (key msg : String) : String :=
  toHexStr (hmacSha256 (strBytes key) (strBytes msg))

/-! ### Auth header generator and orchestrator
(src/core/installer.py) -/

/-- `os.environ.get('INSTALLER_SECRET', 'dev_secret_key')` from
`InstallerProcess.__init__` (line 29): the secret used for signing, with a
fixed fallback key when the environment variable is unset. -/
def installerSecret (env : String → Option String) : String :=
  (env "INSTALLER_SECRET").getD "dev_secret_key"

/-- Shallow embedding of `InstallerProcess._generate_auth_headers`
(src/core/installer.py, lines 140-154).  `now` is the value of
`int(time.time())` at the moment of the call; the function recomputes
`timestamp`, `message` and `signature` from it on every call and returns the
three-entry header mapping. -/
def generateAuthHeaders (now : Nat) (clientId : String) (secret : String) :
    List (String × String) :=
  let timestamp := toString now
  let message := timestamp ++ ":" ++ clientId
  let signature := hmacSha256Hex secret message
  [("X-Installer-Timestamp", timestamp),
   ("X-Installer-Signature", signature),
   ("X-Installer-ID", clientId)]

/-- A callback invocation or Transport call observable during
`InstallerProcess.run`:
* `progress none` is `self.progress_callback(None)` (indeterminate mode),
  `progress (some v)` a determinate percentage forwarded by the downloader;
* `status msg` is `self.status_callback(msg)`;
* `request url auth` marks an invocation of
  `self.downloader.download_file(url, path, headers)` — `auth = none` when no
  headers argument is passed (primary path), `auth = some h` when the auth
  headers `h` are attached (fallback path);
* `complete b` is `self.completion_callback(b)`. -/
inductive Ev where
  | progress (v : Option ℚ)
  | status (msg : String)
  | request (url : String) (auth : Option (List (String × String)))
  | complete (ok : Bool)
deriving DecidableEq, Repr

/-- Injection of downloader callback events into orchestrator events. -/
def dlEv : DlEvent → Ev
  | DlEvent.status m => Ev.status m
  | DlEvent.progress v => Ev.progress (some v)

/-- What one `download_file` call did, as `run` observes it: whether it
returned or raised, the state of the destination file afterwards (what
`os.path.exists` / `os.path.getsize` then see), and the callback events the
downloader emitted.  The downloader only ever emits status/progress events
(`DlEvent`), never a completion. -/
structure DlCall where
  result : Except Unit Unit
  fileAfter : FileState
  events : List DlEvent

/-- View of a `DlResult` as the orchestrator's `DlCall`. -/
def DlResult.toCall (r : DlResult) : DlCall :=
  { result := r.outcome, fileAfter := r.file, events := r.events }

/-- Environment of one `InstallerProcess.run` execution:
* `primary`: outcome of `requests.get('https://api.ascendara.app', timeout=5)`
  plus payload parsing — `.error ()` when the call (or `response.json()`)
  raised, `.ok (code, some v)` when it returned status `code` with a JSON
  body containing `appVer = v` and `status = 'OK'`, `.ok (code, none)` when
  the body lacks those fields;
* `primaryDl` / `fallbackDl`: behaviour of the download on each path;
* `primaryExit` / `fallbackExit`: `process.returncode` of the spawned
  installer on each path;
* `updateMode`: whether `ASCENDARA_UPDATE` is set in the environment;
* `now`: `int(time.time())` when `_generate_auth_headers` runs on the
  fallback path;
* `clientId` and `secret`: `self.client_id` and `self.installer_secret`. -/
structure RunEnv where
  primary : Except Unit (Nat × Option String)
  primaryDl : DlCall
  primaryExit : Nat
  fallbackDl : DlCall
  fallbackExit : Nat
  updateMode : Bool
  now : Nat
  clientId : String
  secret : String

/-- Direct GitHub download URL templated from the resolved version
(src/core/installer.py, line 49). -/
def primaryUrl (version : String) : String :=
  "https://github.com/tagoWorks/ascendara/releases/download/" ++ version ++
    "/Ascendara.Setup." ++ version ++ ".exe"

/-- Fallback LFS endpoint URL (src/core/installer.py, lines 91-93). -/
def fallbackUrl (updateMode : Bool) : String :=
  if updateMode then "https://lfs.ascendara.app/download?update=1"
  else "https://lfs.ascendara.app/download"

/-- The fallback section of `InstallerProcess.run`
(src/core/installer.py, lines 90-128): generate auth headers, emit the
download status, invoke the downloader on the LFS URL with the headers
attached, verify the file, spawn the installer and report completion; any
exception in the inner `try` lands in the handler that emits
"Download failed. Please try again later." and `completion_callback(False)`. -/
def runFallback (e : RunEnv) : List Ev :=
  [Ev.status "Downloading Ascendara...",
   Ev.request (fallbackUrl e.updateMode)
     (some (generateAuthHeaders e.now e.clientId e.secret))] ++
  e.fallbackDl.events.map dlEv ++
  match e.fallbackDl.result with
  | Except.error _ =>
      [Ev.status "Download failed. Please try again later.", Ev.complete false]
  | Except.ok _ =>
      if e.fallbackDl.fileAfter.present = false ∨ e.fallbackDl.fileAfter.size = 0 then
        [Ev.status "Download failed. Please try again later.", Ev.complete false]
      else
        [Ev.status "Running installer...", Ev.progress none] ++
        if e.fallbackExit = 0 then
          [Ev.status "Installation complete!", Ev.complete true]
        else
          [Ev.status "Download failed. Please try again later.", Ev.complete false]

/-- Shallow embedding of `InstallerProcess.run`
(src/core/installer.py, lines 31-138).

Faithful control flow: the initial indeterminate progress event; the primary
version query — when it raises, the inner `except` (line 85) emits
"Primary download failed, trying backup..." and control falls to the
fallback section; when it returns a non-200 status, or a 200 whose body
lacks `appVer`/`status == 'OK'`, NO exception is raised and control falls
through to the fallback section silently (no status message); when the
version resolves, the primary download runs without auth headers, the file
is verified (`not os.path.exists(...) or os.path.getsize(...) == 0` raises),
the installer is spawned, and a non-zero exit raises — every exception from
this block is caught at line 85 and routed to the fallback with the
"trying backup" message.  A fully successful primary path ends with
`completion_callback(True)` and `return`, never reaching the fallback.
(The fire-and-forget `_update_download_count` thread spawned on the primary
path performs no callback events and is not part of this trace.) -/
def run (e : RunEnv) : List Ev :=
  Ev.progress none ::
  match e.primary with
  | Except.error _ =>
      Ev.status "Primary download failed, trying backup..." :: runFallback e
  | Except.ok (code, payload) =>
    if code = 200 then
      match payload with
      | some version =>
          [Ev.status "Downloading Ascendara...",
           Ev.request (primaryUrl version) none] ++
          e.primaryDl.events.map dlEv ++
          match e.primaryDl.result with
          | Except.error _ =>
              Ev.status "Primary download failed, trying backup..." :: runFallback e
          | Except.ok _ =>
              if e.primaryDl.fileAfter.present = false ∨ e.primaryDl.fileAfter.size = 0 then
                Ev.status "Primary download failed, trying backup..." :: runFallback e
              else
                [Ev.status "Running installer...", Ev.progress none] ++
                if e.primaryExit = 0 then
                  [Ev.status "Installation complete!", Ev.complete true]
                else
                  Ev.status "Primary download failed, trying backup..." :: runFallback e
      | none => runFallback e
    else runFallback e

/-- Is an event a completion callback invocation? -/
def isComplete : Ev → Bool
  | Ev.complete _ => true
  | _ => false

/-- Is an event a Transport invocation? -/
def isRequest : Ev → Bool
  | Ev.request _ _ => true
  | _ => false

/-- Is an event a Transport invocation carrying auth headers? -/
def isAuthRequest : Ev → Bool
  | Ev.request _ (some _) => true
  | _ => false

/-! ### Properties of the progress sequence -/

lemma progressList_bounds (total d : Nat) (chunks : List Nat) :
    ∀ x ∈ progressList total d chunks, 0 ≤ x ∧ x ≤ 100 := by
  induction chunks generalizing d with
  | nil => simp [progressList]
  | cons c rest ih =>
    intro x hx
    by_cases hc : c = 0
    · exact ih _ x (by simpa [progressList, hc] using hx)
    · simp only [progressList, if_neg hc, List.mem_cons] at hx
      rcases hx with h | h
      · subst h
        refine ⟨le_min (by positivity) (by norm_num), min_le_right _ _⟩
      · exact ih _ x h

lemma progressList_ge (total : Nat) (ht : total ≠ 0) (d : Nat) (chunks : List Nat) :
    ∀ x ∈ progressList total d chunks,
      min (((d : ℚ) / (total : ℚ)) * 100) 100 ≤ x := by
  have htq : (0 : ℚ) < (total : ℚ) := by
    exact_mod_cast Nat.pos_of_ne_zero ht
  induction chunks generalizing d with
  | nil => simp [progressList]
  | cons c rest ih =>
    intro x hx
    by_cases hc : c = 0
    · exact ih _ x (by simpa [progressList, hc] using hx)
    · simp only [progressList, if_neg hc, List.mem_cons] at hx
      have hmono : min (((d : ℚ) / (total : ℚ)) * 100) 100 ≤
          min ((((d : ℚ) + (c : ℚ)) / (total : ℚ)) * 100) 100 := by
        apply min_le_min _ le_rfl
        gcongr
        norm_num
      rcases hx with h | h
      · subst h; exact hmono
      · calc min (((d : ℚ) / (total : ℚ)) * 100) 100
            ≤ min ((((d : ℚ) + (c : ℚ)) / (total : ℚ)) * 100) 100 := hmono
          _ ≤ x := by
              have := ih (d + c) x h
              simpa [Nat.cast_add] using this

lemma progressList_chain (total : Nat) (ht : total ≠ 0) (d : Nat)
    (chunks : List Nat) :
    List.Chain' (· ≤ ·) (progressList total d chunks) := by
  induction chunks generalizing d with
  | nil => simp [progressList]
  | cons c rest ih =>
    by_cases hc : c = 0
    · simpa [progressList, hc] using ih _
    · simp only [progressList, if_neg hc]
      rw [List.chain'_cons']
      refine ⟨fun y hy => ?_, ih _⟩
      have hmem : y ∈ progressList total (d + c) rest := List.mem_of_mem_head? hy
      have := progressList_ge total ht (d + c) rest y hmem
      simpa [Nat.cast_add] using this

lemma progressList_eq_nil (total d : Nat) (chunks : List Nat)
    (h : ∀ c ∈ chunks, c = 0) : progressList total d chunks = [] := by
  induction chunks generalizing d with
  | nil => simp [progressList]
  | cons c rest ih =>
    have hc : c = 0 := h c (by simp)
    simp only [progressList, if_pos hc]
    exact ih _ (fun x hx => h x (by simp [hx]))

lemma progressList_ne_nil (total d : Nat) (chunks : List Nat)
    (h : ∃ c ∈ chunks, c ≠ 0) : progressList total d chunks ≠ [] := by
  induction chunks generalizing d with
  | nil => simp at h
  | cons c rest ih =>
    by_cases hc : c = 0
    · have h' : ∃ x ∈ rest, x ≠ 0 := by
        rcases h with ⟨x, hx, hx0⟩
        rcases List.mem_cons.mp hx with rfl | hmem
        · exact absurd hc hx0
        · exact ⟨x, hmem, hx0⟩
      simpa [progressList, hc] using ih _ h'
    · simp [progressList, hc]

lemma progressList_getLast (total d : Nat) (chunks : List Nat)
    (h : ∃ c ∈ chunks, c ≠ 0) :
    (progressList total d chunks).getLast? =
      some (min ((((d : ℚ) + (chunks.sum : ℚ)) / (total : ℚ)) * 100) 100) := by
  induction chunks generalizing d with
  | nil => simp at h
  | cons c rest ih =>
    by_cases hc : c = 0
    · have h' : ∃ x ∈ rest, x ≠ 0 := by
        rcases h with ⟨x, hx, hx0⟩
        rcases List.mem_cons.mp hx with rfl | hmem
        · exact absurd hc hx0
        · exact ⟨x, hmem, hx0⟩
      rw [progressList, if_pos hc, ih _ h']
      subst hc
      simp
    · rw [progressList, if_neg hc]
      by_cases hr : ∃ x ∈ rest, x ≠ 0
      · obtain ⟨y, t, hyt⟩ :=
          List.exists_cons_of_ne_nil (progressList_ne_nil total (d + c) rest hr)
        rw [hyt, List.getLast?_cons_cons, ← hyt, ih _ hr]
        simp only [List.sum_cons, Nat.cast_add]
        ring_nf
      · push_neg at hr
        rw [progressList_eq_nil total (d + c) rest hr]
        have hsum : rest.sum = 0 := List.sum_eq_zero hr
        simp [hsum]

lemma progressValues_status (s : String) (l : List DlEvent) :
    progressValues (DlEvent.status s :: l) = progressValues l := by
  simp [progressValues]

lemma progressValues_map_progress (l : List ℚ) :
    progressValues (l.map DlEvent.progress) = l := by
  induction l with
  | nil => simp [progressValues]
  | cons x xs ih =>
    simp only [progressValues, List.map_cons, List.filterMap_cons] at ih ⊢
    simpa using ih

/-! ### Claim theorems: Transport -/

/-- C1, counterexample to the claim as stated: when the server answers the
first request with 500 (and would answer the following requests with 500,
500, 200 with a well-formed body), `Downloader.download_file` raises
immediately after exactly one HTTP request without any backoff sleep — it
does not return Success after 3 retries. -/
theorem transport_retry_counterexample :
    (downloadFile "AscendaraInstaller.exe" { present := false, size := 0 }
        [Response.resp 500 0 [] false, Response.resp 500 0 [] false,
         Response.resp 500 0 [] false, Response.resp 200 4 [4] false]).outcome
      = Except.error () ∧
    (downloadFile "AscendaraInstaller.exe" { present := false, size := 0 }
        [Response.resp 500 0 [] false, Response.resp 500 0 [] false,
         Response.resp 500 0 [] false, Response.resp 200 4 [4] false]).requests
      = 1 ∧
    (downloadFile "AscendaraInstaller.exe" { present := false, size := 0 }
        [Response.resp 500 0 [] false, Response.resp 500 0 [] false,
         Response.resp 500 0 [] false, Response.resp 200 4 [4] false]).sleeps
      = [] :=
  ⟨rfl, rfl, rfl⟩

/-- C1 (amended): `Downloader.download_file` performs no retries and no
backoff at all: on any 5xx response it fails immediately, after exactly one
HTTP request and with no sleep, regardless of how the server would have
answered subsequent requests. -/
theorem transport_no_retry_on_5xx (name : String) (f0 : FileState)
    (status clen : Nat) (chunks : List Nat) (tr : Bool) (rest : List Response)
    (h5 : 500 ≤ status) (h6 : status < 600) :
    (downloadFile name f0 (Response.resp status clen chunks tr :: rest)).outcome
      = Except.error () ∧
    (downloadFile name f0 (Response.resp status clen chunks tr :: rest)).requests
      = 1 ∧
    (downloadFile name f0 (Response.resp status clen chunks tr :: rest)).sleeps
      = [] := by
  have h4 : 400 ≤ status := by omega
  refine ⟨?_, ?_, ?_⟩ <;> simp [downloadFile, h4]

/-- Witness for C1 (amended) at a concrete 500 response. -/
theorem transport_no_retry_on_5xx_witness :
    500 ≤ 500 ∧ 500 < 600 ∧
    (downloadFile "AscendaraInstaller.exe" { present := false, size := 0 }
        [Response.resp 500 7 [3] false]).outcome = Except.error () :=
  ⟨by norm_num, by norm_num,
    (transport_no_retry_on_5xx "AscendaraInstaller.exe"
      { present := false, size := 0 } 500 7 [3] false []
      (by norm_num) (by norm_num)).1⟩

/-- C9: on a 404 (or any 4xx) response, `Downloader.download_file` fails
immediately: exactly one HTTP request is issued, no retry, no backoff
sleep. -/
theorem transport_fail_fast_on_4xx (name : String) (f0 : FileState)
    (status clen : Nat) (chunks : List Nat) (tr : Bool) (rest : List Response)
    (h4 : 400 ≤ status) (h5 : status < 500) :
    (downloadFile name f0 (Response.resp status clen chunks tr :: rest)).outcome
      = Except.error () ∧
    (downloadFile name f0 (Response.resp status clen chunks tr :: rest)).requests
      = 1 ∧
    (downloadFile name f0 (Response.resp status clen chunks tr :: rest)).sleeps
      = [] := by
  refine ⟨?_, ?_, ?_⟩ <;> simp [downloadFile, h4]

/-- Witness for C9 at a concrete 404 response. -/
theorem transport_fail_fast_on_4xx_witness :
    400 ≤ 404 ∧ 404 < 500 ∧
    (downloadFile "AscendaraInstaller.exe" { present := false, size := 0 }
        [Response.resp 404 0 [] false]).requests = 1 :=
  ⟨by norm_num, by norm_num,
    (transport_fail_fast_on_4xx "AscendaraInstaller.exe"
      { present := false, size := 0 } 404 0 [] false []
      (by norm_num) (by norm_num)).2.1⟩

/-- C8, counterexample to the claim as stated: a download whose stream
breaks after 5 of 10 announced bytes fails, and the destination file is
left present with the 5 partial bytes — nothing deletes it. -/
theorem transport_delete_counterexample :
    (downloadFile "f" { present := false, size := 0 }
        [Response.resp 200 10 [5] true]).outcome = Except.error () ∧
    (downloadFile "f" { present := false, size := 0 }
        [Response.resp 200 10 [5] true]).file.present = true ∧
    (downloadFile "f" { present := false, size := 0 }
        [Response.resp 200 10 [5] true]).file.size = 5 :=
  ⟨rfl, rfl, rfl⟩

/-- C8 (amended): on a failure after the response body was partially
written (stream truncated mid-body), `Downloader.download_file` raises and
leaves the partially written destination file in place — the code contains
no deletion of the partial artifact. -/
theorem transport_leaves_partial_file (name : String) (f0 : FileState)
    (clen : Nat) (chunks : List Nat) (rest : List Response) (h : clen ≠ 0) :
    (downloadFile name f0 (Response.resp 200 clen chunks true :: rest)).outcome
      = Except.error () ∧
    (downloadFile name f0 (Response.resp 200 clen chunks true :: rest)).file.present
      = true ∧
    (downloadFile name f0 (Response.resp 200 clen chunks true :: rest)).file.size
      = chunks.sum := by
  refine ⟨?_, ?_, ?_⟩ <;> simp [downloadFile, h]

/-- Witness for C8 (amended) at a concrete truncated download. -/
theorem transport_leaves_partial_file_witness :
    (10 : Nat) ≠ 0 ∧
    (downloadFile "f" { present := false, size := 0 }
        [Response.resp 200 10 [5] true]).file.size = [5].sum :=
  ⟨by norm_num,
    (transport_leaves_partial_file "f" { present := false, size := 0 }
      10 [5] [] (by norm_num)).2.2⟩

/-- C6, counterexample to the claim as stated: for a body of 2 bytes with
content-length 2 delivered in two 1-byte chunks, the values passed to the
progress callback are 50 and 100 — percentages, not fractions in [0, 1],
and the final value is 100, not 1.0. -/
theorem transport_progress_unit_counterexample :
    progressValues (downloadFile "f" { present := false, size := 0 }
        [Response.resp 200 2 [1, 1] false]).events = [50, 100] ∧
    ¬ (∀ x ∈ progressValues (downloadFile "f" { present := false, size := 0 }
        [Response.resp 200 2 [1, 1] false]).events, x ≤ 1) ∧
    (progressValues (downloadFile "f" { present := false, size := 0 }
        [Response.resp 200 2 [1, 1] false]).events).getLast? ≠ some 1 := by
  have hv : progressValues (downloadFile "f" { present := false, size := 0 }
      [Response.resp 200 2 [1, 1] false]).events = [50, 100] := by
    simp [downloadFile, progressValues, progressList]
    norm_num
  refine ⟨hv, ?_, ?_⟩
  · rw [hv]
    intro hall
    have := hall 50 (by simp)
    norm_num at this
  · rw [hv]
    simp

/-- C6 (amended): for a download whose server reports content-length L > 0
and delivers exactly L bytes, the download succeeds and the sequence of
determinate progress values passed to the progress callback is
non-decreasing, every value lies in [0, 100] (percentages), and the final
value equals 100 — all emitted before the success outcome is returned. -/
theorem transport_progress_monotone (name : String) (f0 : FileState)
    (clen : Nat) (chunks : List Nat) (rest : List Response)
    (hclen : clen ≠ 0) (hsum : chunks.sum = clen) :
    (downloadFile name f0 (Response.resp 200 clen chunks false :: rest)).outcome
      = Except.ok () ∧
    List.Chain' (· ≤ ·) (progressValues
      (downloadFile name f0 (Response.resp 200 clen chunks false :: rest)).events) ∧
    (∀ x ∈ progressValues
      (downloadFile name f0 (Response.resp 200 clen chunks false :: rest)).events,
        0 ≤ x ∧ x ≤ 100) ∧
    (progressValues
      (downloadFile name f0 (Response.resp 200 clen chunks false :: rest)).events).getLast?
      = some 100 := by
  have hev : (downloadFile name f0 (Response.resp 200 clen chunks false :: rest)).events
      = DlEvent.status ("Downloading " ++ name ++ "...") ::
        (progressList clen 0 chunks).map DlEvent.progress := by
    simp [downloadFile, hclen]
  have hvals : progressValues
      (downloadFile name f0 (Response.resp 200 clen chunks false :: rest)).events
      = progressList clen 0 chunks := by
    rw [hev]
    rw [progressValues_status, progressValues_map_progress]
  have hex : ∃ c ∈ chunks, c ≠ 0 := by
    by_contra hall
    push_neg at hall
    have h0 : chunks.sum = 0 := List.sum_eq_zero hall
    exact hclen (by rw [← hsum, h0])
  refine ⟨?_, ?_, ?_, ?_⟩
  · simp [downloadFile, hclen]
  · rw [hvals]
    exact progressList_chain clen hclen 0 chunks
  · rw [hvals]
    exact progressList_bounds clen 0 chunks
  · rw [hvals, progressList_getLast clen 0 chunks hex, hsum]
    have hdiv : ((clen : ℚ)) / (clen : ℚ) = 1 :=
      div_self (by exact_mod_cast hclen)
    simp [hdiv]

/-- Witness for C6 (amended) at a concrete 2-byte download. -/
theorem transport_progress_monotone_witness :
    (2 : Nat) ≠ 0 ∧ ([1, 1] : List Nat).sum = 2 ∧
    (progressValues (downloadFile "f" { present := false, size := 0 }
        [Response.resp 200 2 [1, 1] false]).events).getLast? = some 100 :=
  ⟨by norm_num, by norm_num,
    (transport_progress_monotone "f" { present := false, size := 0 }
      2 [1, 1] [] (by norm_num) (by norm_num)).2.2.2⟩

/-! ### Trace lemmas for the orchestrator -/

/-- Exactly one completion callback is invoked in the trace, and it is the
very last event: nothing — in particular no progress event — follows it. -/
def TerminalOnce (t : List Ev) : Prop :=
  ∃ t' b, t = t' ++ [Ev.complete b] ∧ ∀ x ∈ t', isComplete x = false

lemma dlEv_not_complete (x : DlEvent) : isComplete (dlEv x) = false := by
  cases x <;> rfl

lemma dlEv_ne_request (x : DlEvent) (u : String)
    (a : Option (List (String × String))) : dlEv x ≠ Ev.request u a := by
  cases x <;> simp [dlEv]

lemma not_complete_of_mem_map_dlEv (l : List DlEvent) :
    ∀ x ∈ l.map dlEv, isComplete x = false := by
  intro x hx
  obtain ⟨y, _, rfl⟩ := List.mem_map.mp hx
  exact dlEv_not_complete y

lemma terminalOnce_append (pre t : List Ev)
    (hpre : ∀ x ∈ pre, isComplete x = false) (h : TerminalOnce t) :
    TerminalOnce (pre ++ t) := by
  obtain ⟨t', b, rfl, ht⟩ := h
  refine ⟨pre ++ t', b, by simp, ?_⟩
  intro x hx
  rcases List.mem_append.mp hx with h1 | h2
  · exact hpre x h1
  · exact ht x h2

lemma terminalOnce_cons (x : Ev) (t : List Ev)
    (hx : isComplete x = false) (h : TerminalOnce t) : TerminalOnce (x :: t) :=
  terminalOnce_append [x] t (by simpa using hx) h

lemma terminalOnce_end (pre : List Ev) (b : Bool)
    (hpre : ∀ x ∈ pre, isComplete x = false) :
    TerminalOnce (pre ++ [Ev.complete b]) :=
  ⟨pre, b, rfl, hpre⟩

lemma runFallback_terminal (e : RunEnv) : TerminalOnce (runFallback e) := by
  unfold runFallback
  apply terminalOnce_append
  · intro x hx
    rcases List.mem_append.mp hx with h1 | h2
    · fin_cases h1 <;> rfl
    · exact not_complete_of_mem_map_dlEv _ x h2
  · split
    · exact terminalOnce_end [Ev.status "Download failed. Please try again later."]
        false (by intro x hx; fin_cases hx <;> rfl)
    · split
      · exact terminalOnce_end [Ev.status "Download failed. Please try again later."]
          false (by intro x hx; fin_cases hx <;> rfl)
      · apply terminalOnce_append [Ev.status "Running installer...", Ev.progress none]
        · intro x hx
          fin_cases hx <;> rfl
        · split
          · exact terminalOnce_end [Ev.status "Installation complete!"] true
              (by intro x hx; fin_cases hx <;> rfl)
          · exact terminalOnce_end [Ev.status "Download failed. Please try again later."]
              false (by intro x hx; fin_cases hx <;> rfl)

/-- C2: every execution of `InstallerProcess.run` delivers exactly one
terminal outcome: the completion callback is invoked with a Boolean exactly
once, as the very last event of the trace — no second outcome and no
further progress or status event after it. -/
theorem orchestrator_single_terminal (e : RunEnv) : TerminalOnce (run e) := by
  unfold run
  refine terminalOnce_cons _ _ rfl ?_
  split
  · exact terminalOnce_cons _ _ rfl (runFallback_terminal e)
  · split
    · split
      · apply terminalOnce_append
        · intro x hx
          rcases List.mem_append.mp hx with h1 | h2
          · fin_cases h1 <;> rfl
          · exact not_complete_of_mem_map_dlEv _ x h2
        · split
          · exact terminalOnce_cons _ _ rfl (runFallback_terminal e)
          · split
            · exact terminalOnce_cons _ _ rfl (runFallback_terminal e)
            · apply terminalOnce_append
                [Ev.status "Running installer...", Ev.progress none]
              · intro x hx
                fin_cases hx <;> rfl
              · split
                · exact terminalOnce_end [Ev.status "Installation complete!"] true
                    (by intro x hx; fin_cases hx <;> rfl)
                · exact terminalOnce_cons _ _ rfl (runFallback_terminal e)
      · exact runFallback_terminal e
    · exact runFallback_terminal e

lemma dlEv_ne_complete (x : DlEvent) (b : Bool) : dlEv x ≠ Ev.complete b := by
  cases x <;> simp [dlEv]

lemma filter_isRequest_map_dlEv (l : List DlEvent) :
    (l.map dlEv).filter isRequest = [] := by
  induction l with
  | nil => rfl
  | cons x xs ih => cases x <;> simp [dlEv, isRequest, ih]

lemma getLast?_eq_of_append (pre l : List Ev) (x : Ev)
    (h : l.getLast? = some x) : (pre ++ l).getLast? = some x := by
  have hne : l ≠ [] := by
    intro h0
    rw [h0] at h
    simp at h
  rw [List.getLast?_append_of_ne_nil pre hne, h]

lemma runFallback_filter_requests (e : RunEnv) :
    (runFallback e).filter isRequest =
      [Ev.request (fallbackUrl e.updateMode)
        (some (generateAuthHeaders e.now e.clientId e.secret))] := by
  unfold runFallback
  rw [List.filter_append, List.filter_append, filter_isRequest_map_dlEv]
  split
  · simp [isRequest]
  · split
    · simp [isRequest]
    · rw [List.filter_append]
      split <;> simp [isRequest]

lemma runFallback_auth_mem (e : RunEnv) (u : String)
    (a : List (String × String))
    (h : Ev.request u (some a) ∈ runFallback e) :
    u = fallbackUrl e.updateMode ∧
      a = generateAuthHeaders e.now e.clientId e.secret := by
  unfold runFallback at h
  rcases List.mem_append.mp h with h1 | h2
  · rcases List.mem_append.mp h1 with h3 | h4
    · simp at h3
      exact h3
    · obtain ⟨y, _, hy⟩ := List.mem_map.mp h4
      exact absurd hy (dlEv_ne_request y u (some a))
  · split at h2
    · simp at h2
    · split at h2
      · simp at h2
      · rcases List.mem_append.mp h2 with h5 | h6
        · simp at h5
        · split at h6 <;> simp at h6

lemma runFallback_fail_shape (e : RunEnv)
    (hok : e.fallbackDl.result = Except.ok ())
    (hz : e.fallbackDl.fileAfter.present = false ∨ e.fallbackDl.fileAfter.size = 0) :
    runFallback e =
      [Ev.status "Downloading Ascendara...",
       Ev.request (fallbackUrl e.updateMode)
         (some (generateAuthHeaders e.now e.clientId e.secret))] ++
      e.fallbackDl.events.map dlEv ++
      [Ev.status "Download failed. Please try again later.", Ev.complete false] := by
  unfold runFallback
  simp only [hok]
  rw [if_pos hz]

lemma runFallback_fail_getLast (e : RunEnv)
    (hok : e.fallbackDl.result = Except.ok ())
    (hz : e.fallbackDl.fileAfter.present = false ∨ e.fallbackDl.fileAfter.size = 0) :
    (runFallback e).getLast? = some (Ev.complete false) := by
  rw [runFallback_fail_shape e hok hz]
  apply getLast?_eq_of_append
  rfl

lemma runFallback_fail_not_true (e : RunEnv)
    (hok : e.fallbackDl.result = Except.ok ())
    (hz : e.fallbackDl.fileAfter.present = false ∨ e.fallbackDl.fileAfter.size = 0) :
    Ev.complete true ∉ runFallback e := by
  rw [runFallback_fail_shape e hok hz]
  intro hmem
  rcases List.mem_append.mp hmem with h | h
  · rcases List.mem_append.mp h with h1 | h2
    · simp at h1
    · obtain ⟨y, _, hy⟩ := List.mem_map.mp h2
      exact dlEv_ne_complete y true hy
  · simp at h

/-- The full trace of a completely successful primary path of
`InstallerProcess.run` (version resolved, download returned, file verified,
installer exited 0). -/
def primarySuccessTrace (e : RunEnv) (version : String) : List Ev :=
  [Ev.progress none, Ev.status "Downloading Ascendara...",
   Ev.request (primaryUrl version) none] ++
  e.primaryDl.events.map dlEv ++
  [Ev.status "Running installer...", Ev.progress none,
   Ev.status "Installation complete!", Ev.complete true]

/-- An event that is neither a completion nor an authenticated Transport
invocation. -/
def NonTerminalNoAuth (x : Ev) : Prop :=
  isComplete x = false ∧ ∀ u a, x ≠ Ev.request u (some a)

lemma nonTerminalNoAuth_map_dlEv (l : List DlEvent) :
    ∀ x ∈ l.map dlEv, NonTerminalNoAuth x := by
  intro x hx
  obtain ⟨y, _, rfl⟩ := List.mem_map.mp hx
  exact ⟨dlEv_not_complete y, fun u a => dlEv_ne_request y u (some a)⟩

/-- Every run either is a fully successful primary path, or consists of a
prefix of non-terminal, non-authenticated events followed by the complete
fallback section. -/
lemma run_shape (e : RunEnv) :
    (∃ version, run e = primarySuccessTrace e version) ∨
    (∃ pre, run e = pre ++ runFallback e ∧ ∀ x ∈ pre, NonTerminalNoAuth x) := by
  unfold run
  split
  · refine Or.inr ⟨[Ev.progress none,
      Ev.status "Primary download failed, trying backup..."], rfl, ?_⟩
    intro x hx
    fin_cases hx <;> exact ⟨rfl, fun u a h => by simp at h⟩
  · split
    · split
      · rename String => version
        split
        · refine Or.inr ⟨[Ev.progress none, Ev.status "Downloading Ascendara...",
            Ev.request (primaryUrl version) none] ++
            e.primaryDl.events.map dlEv ++
            [Ev.status "Primary download failed, trying backup..."], by simp, ?_⟩
          intro x hx
          rcases List.mem_append.mp hx with h1 | h2
          · rcases List.mem_append.mp h1 with h3 | h4
            · fin_cases h3
              · exact ⟨rfl, fun u a h => by simp at h⟩
              · exact ⟨rfl, fun u a h => by simp at h⟩
              · exact ⟨rfl, fun u a h => by simp at h⟩
            · exact nonTerminalNoAuth_map_dlEv _ x h4
          · fin_cases h2
            exact ⟨rfl, fun u a h => by simp at h⟩
        · split
          · refine Or.inr ⟨[Ev.progress none, Ev.status "Downloading Ascendara...",
              Ev.request (primaryUrl version) none] ++
              e.primaryDl.events.map dlEv ++
              [Ev.status "Primary download failed, trying backup..."], by simp, ?_⟩
            intro x hx
            rcases List.mem_append.mp hx with h1 | h2
            · rcases List.mem_append.mp h1 with h3 | h4
              · fin_cases h3
                · exact ⟨rfl, fun u a h => by simp at h⟩
                · exact ⟨rfl, fun u a h => by simp at h⟩
                · exact ⟨rfl, fun u a h => by simp at h⟩
              · exact nonTerminalNoAuth_map_dlEv _ x h4
            · fin_cases h2
              exact ⟨rfl, fun u a h => by simp at h⟩
          · split
            · exact Or.inl ⟨version, by simp [primarySuccessTrace]⟩
            · refine Or.inr ⟨[Ev.progress none, Ev.status "Downloading Ascendara...",
                Ev.request (primaryUrl version) none] ++
                e.primaryDl.events.map dlEv ++
                [Ev.status "Running installer...", Ev.progress none,
                 Ev.status "Primary download failed, trying backup..."], by simp, ?_⟩
              intro x hx
              rcases List.mem_append.mp hx with h1 | h2
              · rcases List.mem_append.mp h1 with h3 | h4
                · fin_cases h3
                  · exact ⟨rfl, fun u a h => by simp at h⟩
                  · exact ⟨rfl, fun u a h => by simp at h⟩
                  · exact ⟨rfl, fun u a h => by simp at h⟩
                · exact nonTerminalNoAuth_map_dlEv _ x h4
              · fin_cases h2
                · exact ⟨rfl, fun u a h => by simp at h⟩
                · exact ⟨rfl, fun u a h => by simp at h⟩
                · exact ⟨rfl, fun u a h => by simp at h⟩
      · exact Or.inr ⟨[Ev.progress none], rfl,
          by intro x hx; fin_cases hx; exact ⟨rfl, fun u a h => by simp at h⟩⟩
    · exact Or.inr ⟨[Ev.progress none], rfl,
        by intro x hx; fin_cases hx; exact ⟨rfl, fun u a h => by simp at h⟩⟩

lemma auth_not_mem_primarySuccessTrace (e : RunEnv) (version u : String)
    (a : List (String × String)) :
    Ev.request u (some a) ∉ primarySuccessTrace e version := by
  intro hmem
  unfold primarySuccessTrace at hmem
  rcases List.mem_append.mp hmem with h | h
  · rcases List.mem_append.mp h with h1 | h2
    · simp at h1
    · obtain ⟨y, _, hy⟩ := List.mem_map.mp h2
      exact absurd hy (dlEv_ne_request y u (some a))
  · simp at h

/-! ### Claim theorems: orchestrator fallback and failure handling -/

/-- Scenario for C3: primary resolution succeeds, the primary download
fails, the fallback download succeeds and the installer exits 0. -/
def primaryDlFailEnv : RunEnv :=
  { primary := Except.ok (200, some "1.0.0"),
    primaryDl := { result := Except.error (),
                   fileAfter := { present := false, size := 0 }, events := [] },
    primaryExit := 0,
    fallbackDl := { result := Except.ok (),
                    fileAfter := { present := true, size := 9 }, events := [] },
    fallbackExit := 0,
    updateMode := false, now := 1700000000,
    clientId := "client", secret := "dev_secret_key" }

/-- C3, counterexample to the claim as stated: primary resolution succeeded
and the subsequent download failed, yet the run issues a second (fallback)
download request — two Transport invocations in total — and even ends in
terminal success, not a terminal failure. -/
theorem orchestrator_no_retry_counterexample :
    ((run primaryDlFailEnv).filter isRequest).length = 2 ∧
    (run primaryDlFailEnv).getLast? = some (Ev.complete true) :=
  ⟨rfl, rfl⟩

lemma runFallback_ne_nil (e : RunEnv) : runFallback e ≠ [] := by
  unfold runFallback
  simp

/-- C3 (amended): when primary resolution succeeds and the primary path
then fails at any later step — the download raises, the downloaded file is
missing or zero-byte despite a reported success, or the installer exits
nonzero — `InstallerProcess.run` does not surface a terminal failure
directly: it starts a second download attempt (exactly two Transport
invocations in the run, the second on the fallback LFS URL with freshly
generated auth headers attached), and the run's terminal outcome is
exactly the outcome of that fallback section. -/
theorem orchestrator_fallback_after_primary_failure (e : RunEnv)
    (version : String)
    (hp : e.primary = Except.ok (200, some version))
    (hfail : e.primaryDl.result = Except.error () ∨
      (e.primaryDl.result = Except.ok () ∧
        (e.primaryDl.fileAfter.present = false ∨ e.primaryDl.fileAfter.size = 0)) ∨
      (e.primaryDl.result = Except.ok () ∧
        ¬ (e.primaryDl.fileAfter.present = false ∨ e.primaryDl.fileAfter.size = 0) ∧
        e.primaryExit ≠ 0)) :
    (run e).filter isRequest =
      [Ev.request (primaryUrl version) none,
       Ev.request (fallbackUrl e.updateMode)
         (some (generateAuthHeaders e.now e.clientId e.secret))] ∧
    (run e).getLast? = (runFallback e).getLast? := by
  have hshape : ∃ pre, run e = pre ++ runFallback e ∧
      pre.filter isRequest = [Ev.request (primaryUrl version) none] := by
    unfold run
    simp only [hp]
    rcases hfail with hd | ⟨hok, hv⟩ | ⟨hok, hv, hexit⟩
    · simp only [hd]
      refine ⟨[Ev.progress none, Ev.status "Downloading Ascendara...",
        Ev.request (primaryUrl version) none] ++
        e.primaryDl.events.map dlEv ++
        [Ev.status "Primary download failed, trying backup..."], by simp, ?_⟩
      simp [List.filter_append, isRequest, filter_isRequest_map_dlEv]
    · simp only [hok]
      rw [if_pos hv]
      refine ⟨[Ev.progress none, Ev.status "Downloading Ascendara...",
        Ev.request (primaryUrl version) none] ++
        e.primaryDl.events.map dlEv ++
        [Ev.status "Primary download failed, trying backup..."], by simp, ?_⟩
      simp [List.filter_append, isRequest, filter_isRequest_map_dlEv]
    · simp only [hok]
      rw [if_neg hv, if_neg hexit]
      refine ⟨[Ev.progress none, Ev.status "Downloading Ascendara...",
        Ev.request (primaryUrl version) none] ++
        e.primaryDl.events.map dlEv ++
        [Ev.status "Running installer...", Ev.progress none,
         Ev.status "Primary download failed, trying backup..."], by simp, ?_⟩
      simp [List.filter_append, isRequest, filter_isRequest_map_dlEv]
  obtain ⟨pre, hrun, hfilter⟩ := hshape
  constructor
  · rw [hrun, List.filter_append, hfilter, runFallback_filter_requests]
    rfl
  · rw [hrun]
    exact List.getLast?_append_of_ne_nil pre (runFallback_ne_nil e)

/-- Witness for C3 (amended) at a concrete environment (primary download
failure case of the disjunctive hypothesis). -/
theorem orchestrator_fallback_after_primary_failure_witness :
    primaryDlFailEnv.primary = Except.ok (200, some "1.0.0") ∧
    primaryDlFailEnv.primaryDl.result = Except.error () ∧
    (run primaryDlFailEnv).filter isRequest =
      [Ev.request (primaryUrl "1.0.0") none,
       Ev.request (fallbackUrl primaryDlFailEnv.updateMode)
         (some (generateAuthHeaders primaryDlFailEnv.now
           primaryDlFailEnv.clientId primaryDlFailEnv.secret))] ∧
    (run primaryDlFailEnv).getLast? = (runFallback primaryDlFailEnv).getLast? :=
  ⟨rfl, rfl,
    (orchestrator_fallback_after_primary_failure primaryDlFailEnv "1.0.0"
      rfl (Or.inl rfl)).1,
    (orchestrator_fallback_after_primary_failure primaryDlFailEnv "1.0.0"
      rfl (Or.inl rfl)).2⟩

/-- Scenario for the C4 counterexample: the primary download "succeeds" but
leaves a zero-byte file; the fallback then fully succeeds. -/
def zeroByteSuccessEnv : RunEnv :=
  { primary := Except.ok (200, some "1.0.0"),
    primaryDl := { result := Except.ok (),
                   fileAfter := { present := true, size := 0 }, events := [] },
    primaryExit := 0,
    fallbackDl := { result := Except.ok (),
                    fileAfter := { present := true, size := 9 }, events := [] },
    fallbackExit := 0,
    updateMode := false, now := 1700000000,
    clientId := "client", secret := "dev_secret_key" }

/-- C4, counterexample to the claim as stated: the primary download reports
success yet the file has zero size; the session nevertheless ends in
terminal Success (the zero-byte primary download merely triggers the
fallback, which succeeds). -/
theorem orchestrator_zero_byte_counterexample :
    zeroByteSuccessEnv.primaryDl.result = Except.ok () ∧
    zeroByteSuccessEnv.primaryDl.fileAfter.size = 0 ∧
    (run zeroByteSuccessEnv).getLast? = some (Ev.complete true) :=
  ⟨rfl, rfl, rfl⟩

/-- Scenario for the C4 witness: primary resolution raises, the fallback
download reports success but leaves a zero-byte file. -/
def fallbackZeroEnv : RunEnv :=
  { primary := Except.error (),
    primaryDl := { result := Except.error (),
                   fileAfter := { present := false, size := 0 }, events := [] },
    primaryExit := 0,
    fallbackDl := { result := Except.ok (),
                    fileAfter := { present := true, size := 0 }, events := [] },
    fallbackExit := 0,
    updateMode := false, now := 5, clientId := "c", secret := "s" }

/-- C4 (amended): when the FALLBACK download reports success but the file
is missing or zero-size, the session ends with terminal Failure
(completion callback false, the last event of the trace) and never
delivers terminal Success.  (The code has no distinct `VerificationFailed`
kind: the generic "Download failed. Please try again later." message is
emitted.)  The hypothesis that an authenticated request occurs expresses
that the fallback path was actually taken in this run. -/
theorem orchestrator_fallback_zero_byte_failure (e : RunEnv)
    (hok : e.fallbackDl.result = Except.ok ())
    (hz : e.fallbackDl.fileAfter.present = false ∨ e.fallbackDl.fileAfter.size = 0)
    (hreq : ∃ u a, Ev.request u (some a) ∈ run e) :
    (run e).getLast? = some (Ev.complete false) ∧ Ev.complete true ∉ run e := by
  rcases run_shape e with ⟨v, hshape⟩ | ⟨pre, hshape, hpre⟩
  · exfalso
    obtain ⟨u, a, hm⟩ := hreq
    rw [hshape] at hm
    exact auth_not_mem_primarySuccessTrace e v u a hm
  · constructor
    · rw [hshape]
      exact getLast?_eq_of_append _ _ _ (runFallback_fail_getLast e hok hz)
    · rw [hshape]
      intro hm
      rcases List.mem_append.mp hm with h1 | h2
      · have := (hpre _ h1).1
        simp [isComplete] at this
      · exact runFallback_fail_not_true e hok hz h2

/-- Witness for C4 (amended) at a concrete environment. -/
theorem orchestrator_fallback_zero_byte_failure_witness :
    fallbackZeroEnv.fallbackDl.result = Except.ok () ∧
    fallbackZeroEnv.fallbackDl.fileAfter.size = 0 ∧
    (run fallbackZeroEnv).getLast? = some (Ev.complete false) :=
  ⟨rfl, rfl,
    (orchestrator_fallback_zero_byte_failure fallbackZeroEnv rfl (Or.inr rfl)
      ⟨fallbackUrl false, generateAuthHeaders 5 "c" "s", by
        show Ev.request (fallbackUrl false)
            (some (generateAuthHeaders 5 "c" "s")) ∈ run fallbackZeroEnv
        simp [run, runFallback, fallbackZeroEnv]⟩).1⟩

/-- Scenario for the C5 counterexample: the version endpoint answers with
HTTP 500 (no exception raised), so the code falls through to the fallback
without emitting any status message. -/
def primary500Env : RunEnv :=
  { primary := Except.ok (500, none),
    primaryDl := { result := Except.error (),
                   fileAfter := { present := false, size := 0 }, events := [] },
    primaryExit := 0,
    fallbackDl := { result := Except.ok (),
                    fileAfter := { present := true, size := 9 }, events := [] },
    fallbackExit := 0,
    updateMode := false, now := 7, clientId := "c5", secret := "s5" }

/-- C5, counterexample to the claim as stated: when primary resolution
fails with a non-200 status (here 500), the fallback download is performed
(exactly one authenticated Transport invocation) but NO
"Primary download failed, trying backup..." status update is emitted —
the fallback is taken silently. -/
theorem orchestrator_silent_fallback_counterexample :
    Ev.status "Primary download failed, trying backup..." ∉ run primary500Env ∧
    ((run primary500Env).filter isAuthRequest).length = 1 := by
  refine ⟨?_, rfl⟩
  decide

/-- Scenario for the C5 witness: the primary version query raises a network
error, so the status update is emitted and the fallback is taken. -/
def primaryRaiseEnv : RunEnv :=
  { primary := Except.error (),
    primaryDl := { result := Except.error (),
                   fileAfter := { present := false, size := 0 }, events := [] },
    primaryExit := 0,
    fallbackDl := { result := Except.error (),
                    fileAfter := { present := false, size := 0 }, events := [] },
    fallbackExit := 0,
    updateMode := true, now := 3, clientId := "cw", secret := "sw" }

/-- C5 (amended): every authenticated download request in any run uses the
fallback mirror URL and the freshly generated auth headers (timestamp =
the current time at the moment of the fallback call); and when the primary
block raises an exception, the "Primary download failed, trying backup..."
status update is emitted and the authenticated fallback request occurs.
(When primary resolution instead returns a non-200 status or a malformed
payload, the fallback is taken without the status update.) -/
theorem orchestrator_fallback_auth (e : RunEnv) :
    (∀ u a, Ev.request u (some a) ∈ run e →
        u = fallbackUrl e.updateMode ∧
        a = generateAuthHeaders e.now e.clientId e.secret) ∧
    (e.primary = Except.error () →
        Ev.status "Primary download failed, trying backup..." ∈ run e ∧
        Ev.request (fallbackUrl e.updateMode)
          (some (generateAuthHeaders e.now e.clientId e.secret)) ∈ run e) := by
  constructor
  · intro u a hm
    rcases run_shape e with ⟨v, hshape⟩ | ⟨pre, hshape, hpre⟩
    · rw [hshape] at hm
      exact absurd hm (auth_not_mem_primarySuccessTrace e v u a)
    · rw [hshape] at hm
      rcases List.mem_append.mp hm with h1 | h2
      · exact absurd rfl ((hpre _ h1).2 u a)
      · exact runFallback_auth_mem e u a h2
  · intro hp
    have hrun : run e = Ev.progress none ::
        Ev.status "Primary download failed, trying backup..." :: runFallback e := by
      unfold run
      simp only [hp]
    rw [hrun]
    refine ⟨by simp, ?_⟩
    have hmem : Ev.request (fallbackUrl e.updateMode)
        (some (generateAuthHeaders e.now e.clientId e.secret)) ∈ runFallback e := by
      unfold runFallback
      simp
    simp [hmem]

/-- Witness for C5 (amended) at a concrete environment. -/
theorem orchestrator_fallback_auth_witness :
    Ev.status "Primary download failed, trying backup..." ∈ run primaryRaiseEnv ∧
    Ev.request (fallbackUrl primaryRaiseEnv.updateMode)
      (some (generateAuthHeaders primaryRaiseEnv.now primaryRaiseEnv.clientId
        primaryRaiseEnv.secret)) ∈ run primaryRaiseEnv :=
  (orchestrator_fallback_auth primaryRaiseEnv).2 rfl

/-! ### Claim theorems: auth header generator -/

/-- C7: `_generate_auth_headers` returns exactly three headers: the current
Unix time as a decimal string, the hex-encoded HMAC-SHA256 signature of the
string "{timestamp}:{clientId}" keyed with the secret, and the client ID.
The timestamp and signature are recomputed from the clock on every call —
nothing is cached, so two calls whose clock readings render differently
produce different headers. -/
theorem auth_headers_shape (now : Nat) (clientId secret : String) :
    (generateAuthHeaders now clientId secret).length = 3 ∧
    (generateAuthHeaders now clientId secret).lookup "X-Installer-Timestamp"
      = some (toString now) ∧
    (generateAuthHeaders now clientId secret).lookup "X-Installer-ID"
      = some clientId ∧
    (generateAuthHeaders now clientId secret).lookup "X-Installer-Signature"
      = some (hmacSha256Hex secret (toString now ++ ":" ++ clientId)) ∧
    (∀ t1 t2 : Nat, toString t1 ≠ toString t2 →
        generateAuthHeaders t1 clientId secret ≠
          generateAuthHeaders t2 clientId secret) := by
  refine ⟨rfl, rfl, rfl, rfl, ?_⟩
  intro t1 t2 hne heq
  apply hne
  have h := congrArg (fun l => List.lookup "X-Installer-Timestamp" l) heq
  simpa [generateAuthHeaders, List.lookup] using h

/-- Witness for C7 at two concrete clock readings. -/
theorem auth_headers_shape_witness :
    toString (0 : Nat) ≠ toString (1 : Nat) ∧
    generateAuthHeaders 0 "c" "s" ≠ generateAuthHeaders 1 "c" "s" :=
  ⟨by decide, (auth_headers_shape 0 "c" "s").2.2.2.2 0 1 (by decide)⟩

/-- C10: when `INSTALLER_SECRET` is unset in the process environment, the
signing secret falls back to the fixed string 'dev_secret_key'; hence two
installer instances on machines without that variable compute identical
signatures for the same client ID and timestamp. -/
theorem default_secret_deterministic (env1 env2 : String → Option String)
    (t : Nat) (clientId : String)
    (h1 : env1 "INSTALLER_SECRET" = none)
    (h2 : env2 "INSTALLER_SECRET" = none) :
    installerSecret env1 = "dev_secret_key" ∧
    (generateAuthHeaders t clientId (installerSecret env1)).lookup
        "X-Installer-Signature"
      = (generateAuthHeaders t clientId (installerSecret env2)).lookup
        "X-Installer-Signature" := by
  have e1 : installerSecret env1 = "dev_secret_key" := by
    simp [installerSecret, h1]
  have e2 : installerSecret env2 = "dev_secret_key" := by
    simp [installerSecret, h2]
  exact ⟨e1, by rw [e1, e2]⟩

/-- Witness for C10 with a concrete empty environment. -/
theorem default_secret_deterministic_witness :
    ((fun _ => none : String → Option String) "INSTALLER_SECRET" = none) ∧
    installerSecret (fun _ => none) = "dev_secret_key" :=
  ⟨rfl, (default_secret_deterministic (fun _ => none) (fun _ => none)
    0 "c" rfl rfl).1⟩

end Ascendara
